import Mathlib

/-!
Verification development for the OPAQUE aPAKE implementation.

The development shallowly embeds the Go sources: byte strings become
`List Nat`, group scalars and elements become natural numbers modulo the
group order (the discrete logarithm with respect to the generator),
fallible operations return `Except` or pair the new state with an
optional error. External primitive packages (hash, MAC, KDF, group
arithmetic) are consumed through function-valued fields, mirroring the
dynamic dispatch of the source.
-/

/-- Byte strings are lists of naturals; serializers only produce values
below 256. -/
abbrev Bytes : Type := List Nat

/-- Modelled from the spec: `I2OSP(n, L)` is the big-endian L-byte encoding
of n (encoding package is not under src). -/
def I2OSP (n L : Nat) : Bytes :=
  (List.range L).map (fun i => n / 256 ^ (L - 1 - i) % 256)

/-- Modelled from the spec: `OS2IP` is the big-endian bytes-to-integer
conversion, the inverse of `I2OSP`. -/
def OS2IP (b : Bytes) : Nat :=
  List.foldl (fun acc x => acc * 256 + x) 0 b

/-- Modelled from the spec: `EncodeVector(v) = I2OSP(len(v), 2) ‖ v`. -/
def encodeVector (v : Bytes) : Bytes :=
  I2OSP v.length 2 ++ v

/-- Modelled from the spec: length-prefixed vector with an L-byte length
header, as used by the TLS-style labels. -/
def encodeVectorLen (v : Bytes) (L : Nat) : Bytes :=
  I2OSP v.length L ++ v

/-- Modelled from the spec: `DecodeVector` reads a 2-byte length then that
many bytes, failing on short input; it returns the data together with the
offset one past the vector. -/
def decodeVector (b : Bytes) : Except Unit (Bytes × Nat) :=
  if List.length b < 2 then .error ()
  else
    let n := OS2IP (List.take 2 b)
    if List.length b < 2 + n then .error ()
    else .ok (List.take n (List.drop 2 b), 2 + n)

/-- Modelled from the spec: `SuffixString(b, t)` appends the tag bytes to
the input (encoding package is not under src). -/
def suffixString (b t : Bytes) : Bytes := b ++ t

/-- Modelled from the spec: byte-wise XOR of two equal-length strings, as
used by the masking component. -/
def xorBytes (a b : Bytes) : Bytes := List.zipWith Nat.xor a b

/-- Modelled from the spec: the CSPRNG primitive returning `n` bytes; the
seed stands for the entropy drawn from the process-level source. -/
def randomBytes (seed n : Nat) : Bytes :=
  (List.range n).map (fun i => (seed + i) % 256)

/-- Modelled from the spec: `NonceLen = 32`. -/
def nonceLength : Nat := 32

/-- Modelled from the spec: the `SeedLen` constant used for key-derivation
seeds. -/
def seedLength : Nat := 32

theorem i2osp_length (n L : Nat) : (I2OSP n L).length = L := by
  simp [I2OSP]

theorem randomBytes_length (seed n : Nat) : (randomBytes seed n).length = n := by
  simp [randomBytes]

theorem os2ip_i2osp2 (n : Nat) (h : n < 65536) : OS2IP (I2OSP n 2) = n := by
  have h2 : I2OSP n 2 = [n / 256 % 256, n % 256] := by
    simp [I2OSP, List.range_succ]
  have hdiv : n / 256 < 256 := by omega
  rw [h2]
  simp [OS2IP, List.foldl]
  rw [Nat.mod_eq_of_lt hdiv]
  omega

theorem decodeVector_encode (v rest : Bytes) (h : v.length < 65536) :
    decodeVector (encodeVector v ++ rest) = .ok (v, 2 + v.length) := by
  have hl : (I2OSP v.length 2).length = 2 := i2osp_length _ _
  have happ : encodeVector v ++ rest = I2OSP v.length 2 ++ (v ++ rest) := by
    simp [encodeVector]
  have hlen : (encodeVector v ++ rest).length = 2 + (v.length + rest.length) := by
    rw [happ]
    simp [hl]
  have htake : List.take 2 (encodeVector v ++ rest) = I2OSP v.length 2 := by
    rw [happ, List.take_left' hl]
  have hdrop : List.drop 2 (encodeVector v ++ rest) = v ++ rest := by
    rw [happ, List.drop_left' hl]
  unfold decodeVector
  rw [htake, hdrop, os2ip_i2osp2 _ h, hlen]
  have h1 : ¬ (2 + (v.length + rest.length) < 2) := by omega
  have h2 : ¬ (2 + (v.length + rest.length) < 2 + v.length) := by omega
  rw [if_neg h1, if_neg h2, List.take_left]

/-! ### Domain separation tags

The internal tag package is not under src; the byte values are modelled
from the spec section on domain separation tags, written as ASCII codes. -/

/-- Modelled from the spec: the transcript version tag, ASCII of
OPAQUEv1 followed by a dash. -/
def tagVersion : Bytes := [79, 80, 65, 81, 85, 69, 118, 49, 45]

/-- Modelled from the spec: the TLS-style label namespace, ASCII of
OPAQUE followed by a dash, prepended to every Expand-Label label. -/
def tagLabelNamespace : Bytes := [79, 80, 65, 81, 85, 69, 45]

/-- Modelled from the spec: ASCII of HandshakeSecret. -/
def tagHandshake : Bytes :=
  [72, 97, 110, 100, 115, 104, 97, 107, 101, 83, 101, 99, 114, 101, 116]

/-- Modelled from the spec: ASCII of SessionKey. -/
def tagSessionKey : Bytes := [83, 101, 115, 115, 105, 111, 110, 75, 101, 121]

/-- Modelled from the spec: ASCII of ServerMAC. -/
def tagMacServer : Bytes := [83, 101, 114, 118, 101, 114, 77, 65, 67]

/-- Modelled from the spec: ASCII of ClientMAC. -/
def tagMacClient : Bytes := [67, 108, 105, 101, 110, 116, 77, 65, 67]

/-- Modelled from the spec: ASCII of OprfKey. -/
def tagExpandOPRF : Bytes := [79, 112, 114, 102, 75, 101, 121]

/-- Modelled from the spec: ASCII of OPAQUE-DeriveKeyPair, the DST of the
per-user OPRF key derivation. -/
def tagDeriveKeyPair : Bytes :=
  tagLabelNamespace ++ [68, 101, 114, 105, 118, 101, 75, 101, 121, 80, 97, 105, 114]

/-- Modelled from the spec: ASCII of PrivateKey. -/
def tagExpandPrivateKey : Bytes := [80, 114, 105, 118, 97, 116, 101, 75, 101, 121]

/-- Modelled from the spec: ASCII of OPAQUE-DeriveAuthKeyPair, the DST of
the client long-term key derivation. -/
def tagDerivePrivateKey : Bytes :=
  tagLabelNamespace ++
    [68, 101, 114, 105, 118, 101, 65, 117, 116, 104, 75, 101, 121, 80, 97, 105, 114]

/-- Modelled from the spec: ASCII of CredentialResponsePad. -/
def tagCredentialResponsePad : Bytes :=
  [67, 114, 101, 100, 101, 110, 116, 105, 97, 108, 82, 101, 115, 112, 111, 110,
   115, 101, 80, 97, 100]

/-! ### Prime-order group model

The elliptic-curve package is an external primitive. A group element is
modelled by its discrete logarithm with respect to the generator, a
natural number modulo the group order; scalar multiplication of elements
is multiplication of exponents. -/

/-- Modelled from the spec: the generator of the prime-order group, of
exponent one. -/
def baseElement : Nat := 1

/-- Modelled from the spec: scalar multiplication `p · s` in the exponent
representation, reduced modulo the group order. -/
def elemMult (order p s : Nat) : Nat := p * s % order

/-- Modelled from the spec: the fixed-length canonical encoding of a group
element, big-endian over `elemLen` bytes. -/
def serializeElement (order elemLen e : Nat) : Bytes := I2OSP (e % order) elemLen

/-- Modelled from the spec: scalar decoding rejects encodings of the wrong
length and non-canonical values (at or above the group order). -/
def decodeScalar (order scalarLen : Nat) (b : Bytes) : Except Unit Nat :=
  if b.length ≠ scalarLen then .error ()
  else if order ≤ OS2IP b then .error ()
  else .ok (OS2IP b)

/-- Modelled from the spec: element decoding rejects encodings of the
wrong length, non-canonical values and the identity element. -/
def decodeElement (order elemLen : Nat) (b : Bytes) : Except Unit Nat :=
  if b.length ≠ elemLen then .error ()
  else if order ≤ OS2IP b then .error ()
  else if OS2IP b = 0 then .error ()
  else .ok (OS2IP b)

/-- Modelled from the spec: sampling a random non-zero scalar; the seed
stands for the entropy drawn from the CSPRNG. -/
def scalarRandom (order seed : Nat) : Nat :=
  if order ≤ 1 then 0 else seed % (order - 1) + 1

/-- Modelled from the spec: deterministic derivation of an ephemeral
scalar from a caller-supplied key-share seed. -/
def scalarFromSeed (order : Nat) (seed : Bytes) : Nat := OS2IP seed % order

/-! ### Error kinds

Every fallible operation of the package returns a tagged error; the
constructors below mirror the error values declared in the source. -/

/-- The error values of the package (src error declarations, plus the
wrapped decode errors). -/
inductive ProtoErr where
  | invalidOPRFid
  | invalidKDFid
  | invalidMACid
  | invalidHASHid
  | invalidKSFid
  | invalidAKEid
  | configInvalidLength
  | configContextDecode
  | noServerKeyMaterial
  | akeInvalidClientMac
  | invalidState
  | invalidEnvelopeLength
  | invalidPksLength
  | invalidOPRFSeedLength
  | zeroSKS
  | invalidSecretKey
  | invalidPublicKey
  | stateNotEmpty
  deriving DecidableEq, Repr

/-! ### Primitive adapters

The hash, MAC, KDF and group packages are external; the bundle below
stands for the process-level registry of primitives, keyed by the
identifier bytes of the public configuration. -/

/-- Modelled from the spec: the registry of external primitives. Each
field maps an identifier byte to the corresponding primitive
functionality; the functions are arbitrary, the theorems quantify over
the bundle. -/
structure Primitives where
  hashAvailable : Nat → Bool
  ksfAvailable : Nat → Bool
  hashOutSize : Nat → Nat
  groupOrder : Nat → Nat
  groupScalarLen : Nat → Nat
  groupElemLen : Nat → Nat
  hashToScalarFn : Nat → Bytes → Bytes → Nat
  hashFn : Nat → Bytes → Bytes
  macFn : Nat → Bytes → Bytes → Bytes
  kdfExtractFn : Nat → Bytes → Bytes → Bytes
  kdfExpandFn : Nat → Bytes → Bytes → Nat → Bytes

/-- The public Configuration structure (identifier bytes and context),
mirroring the Go struct field for field. -/
structure Configuration where
  Context : Bytes
  KDF : Nat
  MAC : Nat
  Hash : Nat
  KSF : Nat
  OPRF : Nat
  AKE : Nat
  deriving DecidableEq, Repr

/-- Group.Available: the four recognized group identifier bytes
(Ristretto255, P-256, P-384, P-521). -/
def groupAvailable (g : Nat) : Bool :=
  g == 1 || g == 3 || g == 4 || g == 5

/-- confIDsLength: the number of identifier bytes in a serialized
configuration. -/
def confIDsLength : Nat := 6

/-- Configuration.verify: returns the first non-compliant parameter as an
error, in the order of the source checks. -/
def verifyConfiguration (prim : Primitives) (c : Configuration) : Except ProtoErr Unit :=
  if groupAvailable c.OPRF = false then .error .invalidOPRFid
  else if groupAvailable c.AKE = false then .error .invalidAKEid
  else if 25 ≤ c.KDF ∨ prim.hashAvailable c.KDF = false then .error .invalidKDFid
  else if 25 ≤ c.MAC ∨ prim.hashAvailable c.MAC = false then .error .invalidMACid
  else if 25 ≤ c.Hash ∨ prim.hashAvailable c.Hash = false then .error .invalidHASHid
  else if c.KSF ≠ 0 ∧ prim.ksfAvailable c.KSF = false then .error .invalidKSFid
  else .ok ()

/-- The internal configuration: the primitive functionality selected by
the identifier bytes, together with the nonce and envelope lengths. The
function-valued fields decompose the Go interface fields (OPRF, Group,
KDF, MAC, Hash). -/
structure InternalConfiguration where
  oprfOrder : Nat
  oprfElemLen : Nat
  akeOrder : Nat
  scalarLen : Nat
  elemLen : Nat
  oprfHashToScalar : Bytes → Bytes → Nat
  akeHashToScalar : Bytes → Bytes → Nat
  kdfExtract : Bytes → Bytes → Bytes
  kdfExpand : Bytes → Bytes → Nat → Bytes
  kdfSize : Nat
  macFn : Bytes → Bytes → Bytes
  macSize : Nat
  hashFn : Bytes → Bytes
  hashSize : Nat
  nonceLen : Nat
  envelopeSize : Nat
  context : Bytes

/-- Configuration.toInternal: verifies the public configuration and
builds the internal representation; EnvelopeSize is the nonce length plus
the MAC size. -/
def toInternal (prim : Primitives) (c : Configuration) :
    Except ProtoErr InternalConfiguration :=
  match verifyConfiguration prim c with
  | .error e => .error e
  | .ok _ => .ok {
      oprfOrder := prim.groupOrder c.OPRF
      oprfElemLen := prim.groupElemLen c.OPRF
      akeOrder := prim.groupOrder c.AKE
      scalarLen := prim.groupScalarLen c.AKE
      elemLen := prim.groupElemLen c.AKE
      oprfHashToScalar := prim.hashToScalarFn c.OPRF
      akeHashToScalar := prim.hashToScalarFn c.AKE
      kdfExtract := prim.kdfExtractFn c.KDF
      kdfExpand := prim.kdfExpandFn c.KDF
      kdfSize := prim.hashOutSize c.KDF
      macFn := prim.macFn c.MAC
      macSize := prim.hashOutSize c.MAC
      hashFn := prim.hashFn c.Hash
      hashSize := prim.hashOutSize c.Hash
      nonceLen := nonceLength
      envelopeSize := nonceLength + prim.hashOutSize c.MAC
      context := c.Context }

/-- Configuration.Serialize: the six identifier bytes followed by the
length-prefixed context. -/
def serializeConfiguration (c : Configuration) : Bytes :=
  [c.OPRF % 256, c.AKE % 256, c.KSF % 256, c.KDF % 256, c.MAC % 256, c.Hash % 256]
    ++ encodeVector c.Context

/-- DeserializeConfiguration: length check, context decoding (the offset
returned by the vector decoder is ignored, as in the source), field
reconstruction, verification. -/
def deserializeConfiguration (prim : Primitives) (encoded : Bytes) :
    Except ProtoErr Configuration :=
  if encoded.length < confIDsLength + 2 then .error .configInvalidLength
  else
    match encoded with
    | b0 :: b1 :: b2 :: b3 :: b4 :: b5 :: rest =>
      match decodeVector rest with
      | .error _ => .error .configContextDecode
      | .ok (ctx, _) =>
        let c : Configuration := {
          Context := ctx
          KDF := b3
          MAC := b4
          Hash := b5
          KSF := b2
          OPRF := b0
          AKE := b1 }
        match verifyConfiguration prim c with
        | .error e => .error e
        | .ok _ => .ok c
    | _ => .error .configInvalidLength

/-! ### Protocol messages

The message package is not under src; the structures and their
serializations are modelled from the spec message table (all element
fields in canonical compressed encoding). -/

/-- RegistrationRequest message. -/
structure RegistrationRequest where
  BlindedMessage : Nat

/-- RegistrationResponse message. -/
structure RegistrationResponse where
  EvaluatedMessage : Nat
  Pks : Nat

/-- RegistrationRecord message. -/
structure RegistrationRecord where
  PublicKey : Nat
  MaskingKey : Bytes
  Envelope : Bytes

/-- CredentialRequest message. -/
structure CredentialRequest where
  BlindedMessage : Nat

/-- CredentialResponse message. -/
structure CredentialResponse where
  EvaluatedMessage : Nat
  MaskingNonce : Bytes
  MaskedResponse : Bytes

/-- KE1 message. -/
structure KE1 where
  CredentialRequest : CredentialRequest
  ClientNonce : Bytes
  ClientPublicKeyshare : Nat

/-- KE2 message. -/
structure KE2 where
  CredentialResponse : CredentialResponse
  ServerNonce : Bytes
  ServerPublicKeyshare : Nat
  ServerMac : Bytes

/-- KE3 message. -/
structure KE3 where
  ClientMac : Bytes

/-- Modelled from the spec: serialized KE1 is the credential request, the
client nonce and the client key share, in order. -/
def serializeKE1 (conf : InternalConfiguration) (ke1 : KE1) : Bytes :=
  serializeElement conf.oprfOrder conf.oprfElemLen ke1.CredentialRequest.BlindedMessage
    ++ ke1.ClientNonce
    ++ serializeElement conf.akeOrder conf.elemLen ke1.ClientPublicKeyshare

/-- Modelled from the spec: serialized CredentialResponse is the evaluated
message, the masking nonce and the masked response, in order. -/
def serializeCredentialResponse (conf : InternalConfiguration)
    (cr : CredentialResponse) : Bytes :=
  serializeElement conf.oprfOrder conf.oprfElemLen cr.EvaluatedMessage
    ++ cr.MaskingNonce ++ cr.MaskedResponse

/-- ClientRecord: the stored registration record with its credential
identifier and optional client identity. -/
structure ClientRecord where
  RegistrationRecord : RegistrationRecord
  CredentialIdentifier : Bytes
  ClientIdentity : Option Bytes

/-! ### OPRF server side -/

/-- OPRF DeriveKey (src oprf package): hash the input to a scalar under
the given domain separation tag, in the OPRF group. -/
def oprfDeriveKey (conf : InternalConfiguration) (input dst : Bytes) : Nat :=
  conf.oprfHashToScalar input dst

/-- Modelled from the spec: OPRF Evaluate is scalar multiplication of the
blinded element by the key. -/
def oprfEvaluate (conf : InternalConfiguration) (ku element : Nat) : Nat :=
  elemMult conf.oprfOrder element ku

/-- Server.oprfResponse: expand the per-user seed from the long-term OPRF
seed and the credential identifier suffixed with the OprfKey tag, derive
the per-user key and evaluate the blinded element. -/
def oprfResponse (conf : InternalConfiguration)
    (element : Nat) (oprfSeed credentialIdentifier : Bytes) : Nat :=
  let seed := conf.kdfExpand oprfSeed
    (suffixString credentialIdentifier tagExpandOPRF) seedLength
  let ku := oprfDeriveKey conf seed tagDeriveKeyPair
  oprfEvaluate conf ku element

/-- The per-user OPRF key as a function of the long-term seed and the
credential identifier. -/
def derivedOprfKey (conf : InternalConfiguration)
    (oprfSeed credentialIdentifier : Bytes) : Nat :=
  oprfDeriveKey conf
    (conf.kdfExpand oprfSeed (suffixString credentialIdentifier tagExpandOPRF) seedLength)
    tagDeriveKeyPair

/-- Server.RegistrationResponse: evaluate the blinded message and attach
the server public key. -/
def registrationResponse (conf : InternalConfiguration)
    (req : RegistrationRequest) (serverPublicKey : Nat)
    (credentialIdentifier oprfSeed : Bytes) : RegistrationResponse :=
  { EvaluatedMessage := oprfResponse conf req.BlindedMessage oprfSeed credentialIdentifier
    Pks := serverPublicKey }

/-! ### Masking -/

/-- Modelled from the spec: the credential response pad and masking. The
pad is expanded from the masking key over the masking nonce suffixed with
the CredentialResponsePad tag; the masked response is the XOR of the
server public key bytes concatenated with the envelope. A caller-supplied
nonce is used when non-empty, otherwise a fresh nonce is sampled. -/
def maskResponse (conf : InternalConfiguration) (rng : Nat)
    (maskingNonce maskingKey serverPublicKey envelope : Bytes) : Bytes × Bytes :=
  let nonce := if maskingNonce = [] then randomBytes rng conf.nonceLen else maskingNonce
  let pad := conf.kdfExpand maskingKey (suffixString nonce tagCredentialResponsePad)
    (conf.elemLen + conf.envelopeSize)
  (nonce, xorBytes (serverPublicKey ++ envelope) pad)

/-- Server.credentialResponse: evaluate the OPRF and mask the stored
record. -/
def credentialResponse (conf : InternalConfiguration)
    (req : CredentialRequest) (serverPublicKey : Bytes)
    (record : RegistrationRecord)
    (credentialIdentifier oprfSeed maskingNonce : Bytes) (rng : Nat) :
    CredentialResponse :=
  let z := oprfResponse conf req.BlindedMessage oprfSeed credentialIdentifier
  let nm := maskResponse conf rng maskingNonce record.MaskingKey serverPublicKey
    record.Envelope
  { EvaluatedMessage := z, MaskingNonce := nm.1, MaskedResponse := nm.2 }

/-! ### Key recovery -/

/-- deriveAuthKeyPair (src keyrecovery package): expand a seed from the
randomized password and the nonce suffixed with the PrivateKey tag, hash
it to a scalar in the AKE group under the DeriveAuthKeyPair tag, and pair
it with the matching public key. -/
def deriveAuthKeyPair (conf : InternalConfiguration)
    (randomizedPwd nonce : Bytes) : Nat × Nat :=
  let seed := conf.kdfExpand randomizedPwd
    (suffixString nonce tagExpandPrivateKey) seedLength
  let sk := conf.akeHashToScalar seed tagDerivePrivateKey
  (sk, elemMult conf.akeOrder baseElement sk)

/-- getPubkey (src keyrecovery package): the public part of the derived
key pair. -/
def getPubkey (conf : InternalConfiguration) (randomizedPwd nonce : Bytes) : Nat :=
  (deriveAuthKeyPair conf randomizedPwd nonce).2

/-! ### 3DH AKE (src internal/ake package) -/

/-- buildLabel: the TLS-style HkdfLabel, a 2-byte length, the 1-byte
length-prefixed namespaced label and the 1-byte length-prefixed
context. -/
def buildLabel (length : Nat) (label context : Bytes) : Bytes :=
  I2OSP length 2
    ++ encodeVectorLen (tagLabelNamespace ++ label) 1
    ++ encodeVectorLen context 1

/-- expand: KDF Expand to the KDF output size. -/
def kdfExpandSized (conf : InternalConfiguration) (secret hkdfLabel : Bytes) : Bytes :=
  conf.kdfExpand secret hkdfLabel conf.kdfSize

/-- expandLabel: Expand under the built label. -/
def expandLabel (conf : InternalConfiguration) (secret label context : Bytes) : Bytes :=
  kdfExpandSized conf secret (buildLabel conf.kdfSize label context)

/-- deriveSecret: identical to expandLabel in the source. -/
def deriveSecret (conf : InternalConfiguration) (secret label context : Bytes) : Bytes :=
  expandLabel conf secret label context

/-- macKeys: the pair of MAC keys produced by the key schedule. -/
structure MacKeys where
  serverMacKey : Bytes
  clientMacKey : Bytes

/-- deriveKeys: extract the PRK from the IKM, derive the handshake and
session secrets under the given context, and expand the two MAC keys from
the handshake secret with an empty context. -/
def deriveKeys (conf : InternalConfiguration) (ikm context : Bytes) :
    MacKeys × Bytes :=
  let prk := conf.kdfExtract [] ikm
  let handshakeSecret := deriveSecret conf prk tagHandshake context
  let sessionSecret := deriveSecret conf prk tagSessionKey context
  ({ serverMacKey := expandLabel conf handshakeSecret tagMacServer []
     clientMacKey := expandLabel conf handshakeSecret tagMacClient [] },
   sessionSecret)

/-- initTranscript: the bytes written to the transcript hash, in order
the version tag, the length-prefixed context, the length-prefixed client
identity, the serialized KE1, the length-prefixed server identity, the
serialized credential response, the server nonce and the serialized
server key share. -/
def transcriptInit (conf : InternalConfiguration) (idc ids : Bytes)
    (ke1 : KE1) (ke2 : KE2) : Bytes :=
  tagVersion ++ encodeVector conf.context
    ++ encodeVector idc ++ serializeKE1 conf ke1
    ++ encodeVector ids ++ serializeCredentialResponse conf ke2.CredentialResponse
    ++ ke2.ServerNonce
    ++ serializeElement conf.akeOrder conf.elemLen ke2.ServerPublicKeyshare

/-- k3dh: serialize the three Diffie-Hellman products and concatenate
them in argument order. -/
def k3dh (conf : InternalConfiguration) (p1 s1 p2 s2 p3 s3 : Nat) : Bytes :=
  serializeElement conf.akeOrder conf.elemLen (elemMult conf.akeOrder p1 s1)
    ++ serializeElement conf.akeOrder conf.elemLen (elemMult conf.akeOrder p2 s2)
    ++ serializeElement conf.akeOrder conf.elemLen (elemMult conf.akeOrder p3 s3)

/-- The IKM computed in Server.Response: the client ephemeral key share
against the server ephemeral scalar, the client ephemeral key share
against the server long-term scalar, and the client long-term key against
the server ephemeral scalar, in the call order of the source. -/
def serverIkm (conf : InternalConfiguration) (xpk ysk ssk cpk : Nat) : Bytes :=
  k3dh conf xpk ysk xpk ssk cpk ysk

/-- The IKM concatenation in the order the spec sentence on the server
side 3DH states it: client long-term key against server ephemeral scalar
first, client ephemeral key share against server ephemeral scalar
last. -/
def serverIkmSpecOrder (conf : InternalConfiguration) (xpk ysk ssk cpk : Nat) : Bytes :=
  serializeElement conf.akeOrder conf.elemLen (elemMult conf.akeOrder cpk ysk)
    ++ serializeElement conf.akeOrder conf.elemLen (elemMult conf.akeOrder xpk ssk)
    ++ serializeElement conf.akeOrder conf.elemLen (elemMult conf.akeOrder xpk ysk)

/-- core3DH: feed the transcript, derive the keys over the preamble, MAC
the preamble with the server MAC key, absorb the server MAC into the
transcript and MAC the new transcript hash with the client MAC key;
returns the session secret, the server MAC and the client MAC. -/
def core3DH (conf : InternalConfiguration) (ikm idu ids : Bytes)
    (ke1 : KE1) (ke2 : KE2) : Bytes × Bytes × Bytes :=
  let t1 := transcriptInit conf idu ids ke1 ke2
  let kk := deriveKeys conf ikm (conf.hashFn t1)
  let serverMac := conf.macFn kk.1.serverMacKey (conf.hashFn t1)
  let t2 := t1 ++ serverMac
  let transcript3 := conf.hashFn t2
  let clientMac := conf.macFn kk.1.clientMacKey transcript3
  (kk.2, serverMac, clientMac)

/-- Options for the AKE response (key-share seed, nonce, nonce length
override). -/
structure AkeOptions where
  keyShareSeed : Bytes
  nonce : Bytes
  nonceLength : Nat

/-- Modelled from the spec: resolution of the session ephemerals. A
caller-supplied key-share seed derives the ephemeral scalar
deterministically, otherwise a random scalar is sampled; a caller
supplied nonce is used as is, otherwise a fresh nonce of the configured
length (default when the override is zero) is sampled. -/
def resolveEphemeral (order rng : Nat) (opts : AkeOptions) : Nat × Bytes :=
  let esk := if opts.keyShareSeed = [] then scalarRandom order rng
    else scalarFromSeed order opts.keyShareSeed
  let nlen := if opts.nonceLength = 0 then nonceLength else opts.nonceLength
  let nonce := if opts.nonce = [] then randomBytes (rng + 1) nlen else opts.nonce
  (esk, nonce)

/-- Identities: the optional client and server identities. -/
structure Identities where
  ClientIdentity : Option Bytes
  ServerIdentity : Option Bytes

/-- Identities.SetIdentities: an absent identity is substituted by the
corresponding public key bytes. -/
def setIdentities (ids : Identities) (clientPk serverPk : Bytes) : Bytes × Bytes :=
  (ids.ClientIdentity.getD clientPk, ids.ServerIdentity.getD serverPk)

/-- The AKE server state: the optional session ephemeral scalar and
nonce, the expected client MAC and the session secret. -/
structure AkeServer where
  ephemeralSecretKey : Option Nat
  nonce : Bytes
  clientMac : Bytes
  sessionSecret : Bytes

/-- ake.NewServer: the empty AKE server state. -/
def newAkeServer : AkeServer :=
  { ephemeralSecretKey := none, nonce := [], clientMac := [], sessionSecret := [] }

/-- ake.Server.Response: resolve the ephemerals, assemble the KE2 with an
empty MAC, compute the 3DH IKM over the client key share, the server
long-term scalar and the client long-term key, run the 3DH core, store
the session secret and expected client MAC, and attach the server MAC. -/
def akeServerResponse (conf : InternalConfiguration) (idc ids : Bytes)
    (serverSecretKey clientPublicKey : Nat) (ke1 : KE1)
    (response : CredentialResponse) (opts : AkeOptions) (rng : Nat)
    (st : AkeServer) : KE2 × AkeServer :=
  let en := resolveEphemeral conf.akeOrder rng opts
  let esk := en.1
  let epks := elemMult conf.akeOrder baseElement esk
  let ke2 : KE2 := {
    CredentialResponse := response
    ServerNonce := en.2
    ServerPublicKeyshare := epks
    ServerMac := [] }
  let ikm := serverIkm conf ke1.ClientPublicKeyshare esk serverSecretKey clientPublicKey
  let r := core3DH conf ikm idc ids ke1 ke2
  ({ ke2 with ServerMac := r.2.1 },
   { st with
     ephemeralSecretKey := some esk
     nonce := en.2
     clientMac := r.2.2
     sessionSecret := r.1 })

/-- ake.Server.SerializeState: the expected client MAC followed by the
session secret. -/
def serializeAkeState (st : AkeServer) : Bytes :=
  st.clientMac ++ st.sessionSecret

/-- ake.Server.SetState: fails when the existing state is not empty,
otherwise stores the given expected client MAC and session secret. -/
def akeSetState (st : AkeServer) (clientMac sessionSecret : Bytes) :
    AkeServer × Option ProtoErr :=
  if st.clientMac.length ≠ 0 ∨ st.sessionSecret.length ≠ 0 then
    (st, some .stateNotEmpty)
  else
    ({ st with clientMac := clientMac, sessionSecret := sessionSecret }, none)

/-! ### Server object (src top-level package) -/

/-- keyMaterial: the long-term server tuple set by SetKeyMaterial. -/
structure KeyMaterial where
  serverIdentity : Option Bytes
  serverSecretKey : Nat
  serverPublicKey : Bytes
  oprfSeed : Bytes

/-- The server object: internal configuration, optional key material and
the AKE session state. -/
structure OServer where
  conf : InternalConfiguration
  keyMaterial : Option KeyMaterial
  ake : AkeServer

/-- NewServer: a server with the given internal configuration, no key
material and an empty AKE state. -/
def newOServer (conf : InternalConfiguration) : OServer :=
  { conf := conf, keyMaterial := none, ake := newAkeServer }

/-- Server.SetKeyMaterial: decode and reject a zero server secret key,
check the OPRF seed length against the hash output size, check the server
public key length and decoding, then store the key material. The pair
returns the (possibly unchanged) server and an optional error. -/
def setKeyMaterialStep (s : OServer) (serverIdentity : Option Bytes)
    (serverSecretKey serverPublicKey oprfSeed : Bytes) :
    OServer × Option ProtoErr :=
  match decodeScalar s.conf.akeOrder s.conf.scalarLen serverSecretKey with
  | .error _ => (s, some .invalidSecretKey)
  | .ok sks =>
    if sks = 0 then (s, some .zeroSKS)
    else if oprfSeed.length ≠ s.conf.hashSize then (s, some .invalidOPRFSeedLength)
    else if serverPublicKey.length ≠ s.conf.elemLen then (s, some .invalidPksLength)
    else
      match decodeElement s.conf.akeOrder s.conf.elemLen serverPublicKey with
      | .error _ => (s, some .invalidPublicKey)
      | .ok _ =>
        ({ s with keyMaterial := some {
            serverIdentity := serverIdentity
            serverSecretKey := sks
            serverPublicKey := serverPublicKey
            oprfSeed := oprfSeed } },
         none)

/-- GenerateKE2Options: optional masking nonce and AKE options. -/
structure GenerateKE2Options where
  KeyShareSeed : Bytes
  AKENonce : Bytes
  MaskingNonce : Bytes
  AKENonceLength : Nat

/-- getGenerateKE2Options: split the options into the AKE options and the
masking nonce. -/
def getGenerateKE2Options (options : GenerateKE2Options) : AkeOptions × Bytes :=
  ({ keyShareSeed := options.KeyShareSeed
     nonce := options.AKENonce
     nonceLength := options.AKENonceLength },
   options.MaskingNonce)

/-- Server.GenerateKE2: fails when the key material is unset or when the
record envelope length differs from the configured envelope size; on the
happy path it builds the credential response, resolves the identities and
runs the AKE response, updating only the AKE state. -/
def generateKE2 (s : OServer) (ke1 : KE1) (record : ClientRecord)
    (options : GenerateKE2Options) (rng : Nat) :
    OServer × Except ProtoErr KE2 :=
  match s.keyMaterial with
  | none => (s, .error .noServerKeyMaterial)
  | some km =>
    if record.RegistrationRecord.Envelope.length ≠ s.conf.envelopeSize then
      (s, .error .invalidEnvelopeLength)
    else
      let om := getGenerateKE2Options options
      let response := credentialResponse s.conf ke1.CredentialRequest
        km.serverPublicKey record.RegistrationRecord record.CredentialIdentifier
        km.oprfSeed om.2 rng
      let ii := setIdentities
        { ClientIdentity := record.ClientIdentity
          ServerIdentity := km.serverIdentity }
        (serializeElement s.conf.akeOrder s.conf.elemLen
          record.RegistrationRecord.PublicKey)
        km.serverPublicKey
      let ra := akeServerResponse s.conf ii.1 ii.2 km.serverSecretKey
        record.RegistrationRecord.PublicKey ke1 response om.1 rng s.ake
      ({ s with ake := ra.2 }, .ok ra.1)

/-- Server.SetAKEState: reject a state buffer whose length differs from
the MAC size plus the KDF size, then delegate to the AKE SetState, which
rejects a non-empty existing state; the expected client MAC is the first
MAC-size bytes, the session secret the rest. -/
def setAKEStateStep (s : OServer) (state : Bytes) : OServer × Option ProtoErr :=
  if state.length ≠ s.conf.macSize + s.conf.kdfSize then (s, some .invalidState)
  else
    let r := akeSetState s.ake (state.take s.conf.macSize) (state.drop s.conf.macSize)
    match r.2 with
    | some e => (s, some e)
    | none => ({ s with ake := r.1 }, none)

/-- Server.SerializeState: the serialized AKE state of the server. -/
def serializeState (s : OServer) : Bytes := serializeAkeState s.ake

/-- Configuration.GetFakeRecord: build the internal configuration, sample
a random scalar and multiply the base point by it for the public key,
sample a masking key of KDF size, and use an all-zero envelope of nonce
length plus MAC size. -/
def getFakeRecord (prim : Primitives) (c : Configuration)
    (credentialIdentifier : Bytes) (rngScalar rngBytes : Nat) :
    Except ProtoErr ClientRecord :=
  match toInternal prim c with
  | .error e => .error e
  | .ok i =>
    let scalar := scalarRandom i.akeOrder rngScalar
    let publicKey := elemMult i.akeOrder baseElement scalar
    .ok {
      RegistrationRecord := {
        PublicKey := publicKey
        MaskingKey := randomBytes rngBytes i.kdfSize
        Envelope := List.replicate (nonceLength + i.macSize) 0 }
      CredentialIdentifier := credentialIdentifier
      ClientIdentity := none }

/-! ### Concrete instances used to evaluate the definitions -/

/-- A small concrete internal configuration: a group of order 101 with
one-byte encodings, and toy primitive functions of the declared output
sizes. -/
def toyConf : InternalConfiguration := {
  oprfOrder := 101
  oprfElemLen := 1
  akeOrder := 101
  scalarLen := 1
  elemLen := 1
  oprfHashToScalar := fun i d => (i.length + d.length) % 101
  akeHashToScalar := fun i d => (i.length + d.length) % 101
  kdfExtract := fun s i => s ++ i
  kdfExpand := fun k info n => List.replicate n ((k.length + info.length) % 256)
  kdfSize := 2
  macFn := fun k m => [(k.length + m.length) % 256]
  macSize := 1
  hashFn := fun b => [b.length % 256]
  hashSize := 3
  nonceLen := nonceLength
  envelopeSize := nonceLength + 1
  context := [] }

/-! ### Claims -/

/-- Claim C1, counterexample: at a concrete configuration and concrete
keys the IKM computed by the server response differs from the
concatenation order stated by the spec (the first and third products are
swapped). -/
theorem claim_C1_counterexample :
    serverIkm toyConf 2 5 7 3 ≠ serverIkmSpecOrder toyConf 2 5 7 3 := by
  decide

/-- Claim C1, amended: in the server 3DH response the IKM passed to the
key schedule is the concatenation of the serialized compressed elements
(xpk^ysk) then (xpk^ssk) then (cpk^ysk), where (xsk, xpk) is the client
ephemeral pair from KE1, (ysk, ypk) the server ephemeral pair, cpk the
client long-term public key and ssk the server long-term secret key; the
AKE response feeds exactly this IKM into the 3DH core. -/
theorem claim_C1 (conf : InternalConfiguration) (xpk ysk ssk cpk : Nat) :
    serverIkm conf xpk ysk ssk cpk =
      serializeElement conf.akeOrder conf.elemLen (elemMult conf.akeOrder xpk ysk)
        ++ serializeElement conf.akeOrder conf.elemLen (elemMult conf.akeOrder xpk ssk)
        ++ serializeElement conf.akeOrder conf.elemLen (elemMult conf.akeOrder cpk ysk)
    ∧ ∀ (idc ids : Bytes) (ke1 : KE1) (response : CredentialResponse)
        (opts : AkeOptions) (rng : Nat) (st : AkeServer),
      (akeServerResponse conf idc ids ssk cpk ke1 response opts rng st).2.sessionSecret =
        (core3DH conf
          (serverIkm conf ke1.ClientPublicKeyshare
            (resolveEphemeral conf.akeOrder rng opts).1 ssk cpk)
          idc ids ke1
          ⟨response, (resolveEphemeral conf.akeOrder rng opts).2,
            elemMult conf.akeOrder baseElement
              (resolveEphemeral conf.akeOrder rng opts).1, []⟩).1 := by
  exact ⟨rfl, fun _ _ _ _ _ _ _ => rfl⟩

/-- Claim C2: the evaluated message of both the registration response and
the login credential response is the blinded element evaluated under the
per-user OPRF key, which is DeriveKey applied to the KDF expansion of the
long-term OPRF seed over the credential identifier suffixed with the
OprfKey tag, under the OPAQUE-DeriveKeyPair tag; the key is thereby a
deterministic function of the seed and the credential identifier. -/
theorem claim_C2 (conf : InternalConfiguration) (req : RegistrationRequest)
    (creq : CredentialRequest) (spk : Nat) (spkBytes : Bytes)
    (record : RegistrationRecord) (credentialIdentifier oprfSeed mn : Bytes)
    (rng : Nat) :
    (registrationResponse conf req spk credentialIdentifier oprfSeed).EvaluatedMessage =
      oprfEvaluate conf (derivedOprfKey conf oprfSeed credentialIdentifier)
        req.BlindedMessage
    ∧ (credentialResponse conf creq spkBytes record credentialIdentifier oprfSeed
        mn rng).EvaluatedMessage =
      oprfEvaluate conf (derivedOprfKey conf oprfSeed credentialIdentifier)
        creq.BlindedMessage
    ∧ derivedOprfKey conf oprfSeed credentialIdentifier =
      oprfDeriveKey conf
        (conf.kdfExpand oprfSeed (credentialIdentifier ++ tagExpandOPRF) seedLength)
        tagDeriveKeyPair := by
  exact ⟨rfl, rfl, rfl⟩

/-- Claim C3: the derived client long-term secret key is HashToScalar of
the KDF expansion of the randomized password over the envelope nonce
suffixed with the PrivateKey tag, under the OPAQUE-DeriveAuthKeyPair tag,
and the derived public key is the base point multiplied by that
scalar. -/
theorem claim_C3 (conf : InternalConfiguration) (randomizedPwd nonce : Bytes) :
    (deriveAuthKeyPair conf randomizedPwd nonce).1 =
      conf.akeHashToScalar
        (conf.kdfExpand randomizedPwd (nonce ++ tagExpandPrivateKey) seedLength)
        tagDerivePrivateKey
    ∧ getPubkey conf randomizedPwd nonce =
      elemMult conf.akeOrder baseElement
        (deriveAuthKeyPair conf randomizedPwd nonce).1 := by
  exact ⟨rfl, rfl⟩

/-- Claim C4: in the 3DH core the server MAC is the MAC, under the
ServerMAC expansion of the handshake secret, of the transcript hash; the
client MAC is the MAC, under the ClientMAC expansion, of the hash of the
transcript extended with the server MAC. -/
theorem claim_C4 (conf : InternalConfiguration) (ikm idu ids : Bytes)
    (ke1 : KE1) (ke2 : KE2) :
    (core3DH conf ikm idu ids ke1 ke2).2.1 =
      conf.macFn
        (expandLabel conf
          (deriveSecret conf (conf.kdfExtract [] ikm) tagHandshake
            (conf.hashFn (transcriptInit conf idu ids ke1 ke2)))
          tagMacServer [])
        (conf.hashFn (transcriptInit conf idu ids ke1 ke2))
    ∧ (core3DH conf ikm idu ids ke1 ke2).2.2 =
      conf.macFn
        (expandLabel conf
          (deriveSecret conf (conf.kdfExtract [] ikm) tagHandshake
            (conf.hashFn (transcriptInit conf idu ids ke1 ke2)))
          tagMacClient [])
        (conf.hashFn (transcriptInit conf idu ids ke1 ke2
          ++ (core3DH conf ikm idu ids ke1 ke2).2.1)) := by
  exact ⟨rfl, rfl⟩

/-- Claim C5: SetKeyMaterial fails with the zero-scalar error when the
decoded server secret key is the zero scalar, and, for a non-zero decoded
key, fails with the invalid OPRF seed length error when the seed length
differs from the configured hash output size; in both cases the server is
returned unchanged, so its key material remains unset. -/
theorem claim_C5 (s : OServer) (si : Option Bytes) (sks spk seed : Bytes) :
    (decodeScalar s.conf.akeOrder s.conf.scalarLen sks = .ok 0 →
      setKeyMaterialStep s si sks spk seed = (s, some ProtoErr.zeroSKS))
    ∧ (∀ v, decodeScalar s.conf.akeOrder s.conf.scalarLen sks = .ok v → v ≠ 0 →
      seed.length ≠ s.conf.hashSize →
      setKeyMaterialStep s si sks spk seed =
        (s, some ProtoErr.invalidOPRFSeedLength)) := by
  constructor
  · intro h
    simp [setKeyMaterialStep, h]
  · intro v h hv hlen
    simp [setKeyMaterialStep, h, hv, hlen]

/-- A server over the toy configuration with no key material set. -/
def toyServer : OServer := newOServer toyConf

/-- Witness for claim C5 at concrete inputs: a zero secret key byte and a
non-zero key with an empty OPRF seed. -/
theorem claim_C5_witness :
    setKeyMaterialStep toyServer none [0] [4] [] = (toyServer, some ProtoErr.zeroSKS)
    ∧ setKeyMaterialStep toyServer none [5] [4] [] =
      (toyServer, some ProtoErr.invalidOPRFSeedLength) :=
  ⟨(claim_C5 toyServer none [0] [4] []).1 rfl,
   (claim_C5 toyServer none [5] [4] []).2 5 rfl (by decide) (by decide)⟩

/-- Claim C6: GenerateKE2 fails with the missing key material error when
no successful SetKeyMaterial call has occurred (the key material is
unset), and fails with the invalid envelope length error when the record
envelope length differs from the nonce length plus the MAC size (the
configured envelope size); in both cases no KE2 is produced and the
server, including its AKE session state, is returned unchanged. -/
theorem claim_C6 (s : OServer) (ke1 : KE1) (record : ClientRecord)
    (options : GenerateKE2Options) (rng : Nat) :
    (s.keyMaterial = none →
      generateKE2 s ke1 record options rng = (s, .error ProtoErr.noServerKeyMaterial))
    ∧ (∀ km, s.keyMaterial = some km →
      s.conf.envelopeSize = nonceLength + s.conf.macSize →
      record.RegistrationRecord.Envelope.length ≠ nonceLength + s.conf.macSize →
      generateKE2 s ke1 record options rng =
        (s, .error ProtoErr.invalidEnvelopeLength)) := by
  constructor
  · intro h
    simp [generateKE2, h]
  · intro km hkm henv hlen
    rw [generateKE2, hkm]
    simp only [henv]
    rw [if_pos hlen]

/-- Concrete key material for the toy configuration. -/
def toyKeyMaterial : KeyMaterial :=
  { serverIdentity := none, serverSecretKey := 5, serverPublicKey := [4],
    oprfSeed := [1, 2, 3] }

/-- A server over the toy configuration with key material set. -/
def toyServerKM : OServer :=
  { conf := toyConf, keyMaterial := some toyKeyMaterial, ake := newAkeServer }

/-- A concrete client record whose envelope is empty, hence of invalid
length for the toy configuration. -/
def toyRecord : ClientRecord :=
  { RegistrationRecord := { PublicKey := 3, MaskingKey := [9, 9], Envelope := [] },
    CredentialIdentifier := [1], ClientIdentity := none }

/-- A concrete KE1 message. -/
def toyKE1 : KE1 :=
  { CredentialRequest := { BlindedMessage := 2 }, ClientNonce := [7],
    ClientPublicKeyshare := 2 }

/-- Empty KE2 generation options (all values sampled). -/
def toyOptions : GenerateKE2Options :=
  { KeyShareSeed := [], AKENonce := [], MaskingNonce := [], AKENonceLength := 0 }

/-- Witness for claim C6 at concrete inputs: a server without key
material, and a server with key material facing a record with an
empty envelope. -/
theorem claim_C6_witness :
    generateKE2 toyServer toyKE1 toyRecord toyOptions 0 =
      (toyServer, .error ProtoErr.noServerKeyMaterial)
    ∧ generateKE2 toyServerKM toyKE1 toyRecord toyOptions 0 =
      (toyServerKM, .error ProtoErr.invalidEnvelopeLength) :=
  ⟨(claim_C6 toyServer toyKE1 toyRecord toyOptions 0).1 rfl,
   (claim_C6 toyServerKM toyKE1 toyRecord toyOptions 0).2 toyKeyMaterial rfl
     (by decide) (by decide)⟩

/-- Claim C7: for every credential identifier and valid configuration,
GetFakeRecord succeeds and produces a record whose public key is the
sampled random scalar times the base point, whose masking key has the KDF
output length, and whose envelope is all zero bytes of length nonce
length plus MAC size: the same length invariants as a real record. -/
theorem claim_C7 (prim : Primitives) (c : Configuration) (credId : Bytes)
    (rs rb : Nat) (i : InternalConfiguration) (h : toInternal prim c = .ok i) :
    ∃ r, getFakeRecord prim c credId rs rb = .ok r
      ∧ r.RegistrationRecord.PublicKey =
          elemMult i.akeOrder baseElement (scalarRandom i.akeOrder rs)
      ∧ r.RegistrationRecord.MaskingKey.length = i.kdfSize
      ∧ r.RegistrationRecord.Envelope = List.replicate (nonceLength + i.macSize) 0
      ∧ r.RegistrationRecord.Envelope.length = nonceLength + i.macSize := by
  have hg : getFakeRecord prim c credId rs rb = .ok
      ⟨⟨elemMult i.akeOrder baseElement (scalarRandom i.akeOrder rs),
        randomBytes rb i.kdfSize,
        List.replicate (nonceLength + i.macSize) 0⟩, credId, none⟩ := by
    rw [getFakeRecord, h]
  exact ⟨_, hg, rfl, randomBytes_length _ _, rfl, by simp⟩

/-- A registry of toy primitives, available at every identifier. -/
def toyPrim : Primitives := {
  hashAvailable := fun _ => true
  ksfAvailable := fun _ => true
  hashOutSize := fun _ => 2
  groupOrder := fun _ => 101
  groupScalarLen := fun _ => 1
  groupElemLen := fun _ => 1
  hashToScalarFn := fun _ i d => (i.length + d.length) % 101
  hashFn := fun _ b => [b.length % 256]
  macFn := fun _ k m => [(k.length + m.length) % 256, 0]
  kdfExtractFn := fun _ s i => s ++ i
  kdfExpandFn := fun _ k info n => List.replicate n ((k.length + info.length) % 256) }

/-- A concrete valid public configuration (Ristretto identifiers, SHA-512
hash identifiers, Argon2id). -/
def toyPubConf : Configuration :=
  { Context := [], KDF := 7, MAC := 7, Hash := 7, KSF := 1, OPRF := 1, AKE := 1 }

/-- The internal configuration obtained from the toy primitives and the
toy public configuration. -/
def toyInternalOfPub : InternalConfiguration := {
  oprfOrder := 101
  oprfElemLen := 1
  akeOrder := 101
  scalarLen := 1
  elemLen := 1
  oprfHashToScalar := toyPrim.hashToScalarFn 1
  akeHashToScalar := toyPrim.hashToScalarFn 1
  kdfExtract := toyPrim.kdfExtractFn 7
  kdfExpand := toyPrim.kdfExpandFn 7
  kdfSize := 2
  macFn := toyPrim.macFn 7
  macSize := 2
  hashFn := toyPrim.hashFn 7
  hashSize := 2
  nonceLen := nonceLength
  envelopeSize := nonceLength + 2
  context := [] }

/-- Witness for claim C7 at a concrete valid configuration. -/
theorem claim_C7_witness :
    ∃ r, getFakeRecord toyPrim toyPubConf [1] 0 0 = .ok r
      ∧ r.RegistrationRecord.PublicKey =
          elemMult toyInternalOfPub.akeOrder baseElement
            (scalarRandom toyInternalOfPub.akeOrder 0)
      ∧ r.RegistrationRecord.MaskingKey.length = toyInternalOfPub.kdfSize
      ∧ r.RegistrationRecord.Envelope =
          List.replicate (nonceLength + toyInternalOfPub.macSize) 0
      ∧ r.RegistrationRecord.Envelope.length =
          nonceLength + toyInternalOfPub.macSize :=
  claim_C7 toyPrim toyPubConf [1] 0 0 toyInternalOfPub rfl

/-! ### Configuration serialization lemmas -/

theorem groupAvailable_lt (g : Nat) (h : groupAvailable g = true) : g < 256 := by
  simp [groupAvailable] at h
  rcases h with h | h | h | h <;> omega

theorem verify_ok_bounds (prim : Primitives) (c : Configuration)
    (h : verifyConfiguration prim c = .ok ()) :
    groupAvailable c.OPRF = true ∧ groupAvailable c.AKE = true ∧
      c.KDF < 25 ∧ c.MAC < 25 ∧ c.Hash < 25 := by
  unfold verifyConfiguration at h
  by_cases h1 : groupAvailable c.OPRF = false
  · rw [if_pos h1] at h
    exact absurd h (by simp)
  rw [if_neg h1] at h
  by_cases h2 : groupAvailable c.AKE = false
  · rw [if_pos h2] at h
    exact absurd h (by simp)
  rw [if_neg h2] at h
  by_cases h3 : 25 ≤ c.KDF ∨ prim.hashAvailable c.KDF = false
  · rw [if_pos h3] at h
    exact absurd h (by simp)
  rw [if_neg h3] at h
  by_cases h4 : 25 ≤ c.MAC ∨ prim.hashAvailable c.MAC = false
  · rw [if_pos h4] at h
    exact absurd h (by simp)
  rw [if_neg h4] at h
  by_cases h5 : 25 ≤ c.Hash ∨ prim.hashAvailable c.Hash = false
  · rw [if_pos h5] at h
    exact absurd h (by simp)
  obtain ⟨h3a, _⟩ := not_or.mp h3
  obtain ⟨h4a, _⟩ := not_or.mp h4
  obtain ⟨h5a, _⟩ := not_or.mp h5
  have h1t : groupAvailable c.OPRF = true := by
    cases hx : groupAvailable c.OPRF
    · exact absurd hx h1
    · rfl
  have h2t : groupAvailable c.AKE = true := by
    cases hx : groupAvailable c.AKE
    · exact absurd hx h2
    · rfl
  exact ⟨h1t, h2t, by omega, by omega, by omega⟩

theorem serialize_eq_cons (prim : Primitives) (c : Configuration)
    (hv : verifyConfiguration prim c = .ok ()) (hksf : c.KSF < 256) :
    serializeConfiguration c =
      c.OPRF :: c.AKE :: c.KSF :: c.KDF :: c.MAC :: c.Hash :: encodeVector c.Context := by
  obtain ⟨h1, h2, h3, h4, h5⟩ := verify_ok_bounds prim c hv
  have hOP := groupAvailable_lt _ h1
  have hAKE := groupAvailable_lt _ h2
  simp [serializeConfiguration, Nat.mod_eq_of_lt hOP, Nat.mod_eq_of_lt hAKE,
    Nat.mod_eq_of_lt hksf, Nat.mod_eq_of_lt (show c.KDF < 256 by omega),
    Nat.mod_eq_of_lt (show c.MAC < 256 by omega),
    Nat.mod_eq_of_lt (show c.Hash < 256 by omega)]

theorem deserialize_serialize_append (prim : Primitives) (c : Configuration)
    (junk : Bytes) (hv : verifyConfiguration prim c = .ok ())
    (hksf : c.KSF < 256) (hctx : c.Context.length < 65536) :
    deserializeConfiguration prim (serializeConfiguration c ++ junk) = .ok c := by
  rw [serialize_eq_cons prim c hv hksf]
  show deserializeConfiguration prim
    (c.OPRF :: c.AKE :: c.KSF :: c.KDF :: c.MAC :: c.Hash ::
      (encodeVector c.Context ++ junk)) = .ok c
  unfold deserializeConfiguration
  have hlen : ¬ ((c.OPRF :: c.AKE :: c.KSF :: c.KDF :: c.MAC :: c.Hash ::
      (encodeVector c.Context ++ junk)).length < confIDsLength + 2) := by
    have h2 := i2osp_length c.Context.length 2
    simp [encodeVector, confIDsLength]
    omega
  rw [if_neg hlen]
  simp only [decodeVector_encode _ _ hctx]
  have hc : ({
      Context := c.Context
      KDF := c.KDF
      MAC := c.MAC
      Hash := c.Hash
      KSF := c.KSF
      OPRF := c.OPRF
      AKE := c.AKE } : Configuration) = c := rfl
  rw [hc, hv]

/-- Claim C8: for a valid configuration (with byte-sized KSF identifier
and context below the two-byte length limit) the serialization is the six
identifier bytes followed by the length-prefixed context,
deserializing it returns the same configuration, and deserialization
fails on every input shorter than eight bytes. -/
theorem claim_C8 (prim : Primitives) (c : Configuration)
    (hv : verifyConfiguration prim c = .ok ())
    (hksf : c.KSF < 256) (hctx : c.Context.length < 65536) :
    serializeConfiguration c =
      [c.OPRF, c.AKE, c.KSF, c.KDF, c.MAC, c.Hash] ++ encodeVector c.Context
    ∧ deserializeConfiguration prim (serializeConfiguration c) = .ok c
    ∧ ∀ b : Bytes, b.length < 8 →
        deserializeConfiguration prim b = .error ProtoErr.configInvalidLength := by
  refine ⟨?_, ?_, ?_⟩
  · simpa using serialize_eq_cons prim c hv hksf
  · have h := deserialize_serialize_append prim c [] hv hksf hctx
    simpa using h
  · intro b hb
    unfold deserializeConfiguration
    rw [if_pos (by simpa [confIDsLength] using hb)]

/-- Witness for claim C8 at the concrete valid configuration over the toy
primitives. -/
theorem claim_C8_witness :
    serializeConfiguration toyPubConf =
      [toyPubConf.OPRF, toyPubConf.AKE, toyPubConf.KSF, toyPubConf.KDF,
        toyPubConf.MAC, toyPubConf.Hash] ++ encodeVector toyPubConf.Context
    ∧ deserializeConfiguration toyPrim (serializeConfiguration toyPubConf) =
        .ok toyPubConf
    ∧ ∀ b : Bytes, b.length < 8 →
        deserializeConfiguration toyPrim b = .error ProtoErr.configInvalidLength :=
  claim_C8 toyPrim toyPubConf rfl (by decide) (by decide)

/-- Claim C9, counterexample: a well-formed serialized configuration
followed by two extra trailing bytes deserializes successfully to the
original configuration, so deserialization does not return an error on
this over-long input. -/
theorem claim_C9_counterexample :
    deserializeConfiguration toyPrim (serializeConfiguration toyPubConf ++ [7, 7]) =
      .ok toyPubConf :=
  deserialize_serialize_append toyPrim toyPubConf [7, 7] rfl (by decide) (by decide)

/-- Claim C9, amended: deserialization does not reject trailing bytes:
for every valid configuration and every trailing suffix, deserializing
the serialization followed by the suffix returns the original
configuration, the trailing bytes being ignored (the offset returned by
the vector decoder is discarded). -/
theorem claim_C9 (prim : Primitives) (c : Configuration) (junk : Bytes)
    (hv : verifyConfiguration prim c = .ok ())
    (hksf : c.KSF < 256) (hctx : c.Context.length < 65536) :
    deserializeConfiguration prim (serializeConfiguration c ++ junk) = .ok c :=
  deserialize_serialize_append prim c junk hv hksf hctx

/-- Witness for the amended claim C9 at a concrete input with one
trailing byte. -/
theorem claim_C9_witness :
    deserializeConfiguration toyPrim (serializeConfiguration toyPubConf ++ [9]) =
      .ok toyPubConf :=
  claim_C9 toyPrim toyPubConf [9] rfl (by decide) (by decide)

/-! ### AKE state lemmas -/

theorem setAKEStateStep_success (s : OServer) (st : Bytes)
    (h1 : s.ake.clientMac = []) (h2 : s.ake.sessionSecret = [])
    (h3 : st.length = s.conf.macSize + s.conf.kdfSize) :
    setAKEStateStep s st =
      ({ s with ake := { s.ake with
          clientMac := st.take s.conf.macSize
          sessionSecret := st.drop s.conf.macSize } }, none) := by
  unfold setAKEStateStep
  rw [if_neg (not_not_intro h3)]
  unfold akeSetState
  rw [if_neg (by simp [h1, h2])]

theorem setAKEStateStep_nonempty (s : OServer) (h : s.ake.clientMac ≠ [])
    (st2 : Bytes) :
    (setAKEStateStep s st2).2.isSome = true ∧ (setAKEStateStep s st2).1 = s := by
  unfold setAKEStateStep
  by_cases hl : st2.length ≠ s.conf.macSize + s.conf.kdfSize
  · rw [if_pos hl]
    exact ⟨rfl, rfl⟩
  · rw [if_neg hl]
    unfold akeSetState
    rw [if_pos (Or.inl (by simpa [List.length_eq_zero] using h))]
    exact ⟨rfl, rfl⟩

theorem akeServerResponse_clientMac_length (conf : InternalConfiguration)
    (idc ids : Bytes) (ssk cpk : Nat) (ke1 : KE1) (response : CredentialResponse)
    (opts : AkeOptions) (rng : Nat) (st : AkeServer)
    (hmac : ∀ k m, (conf.macFn k m).length = conf.macSize) :
    (akeServerResponse conf idc ids ssk cpk ke1 response opts rng
      st).2.clientMac.length = conf.macSize :=
  hmac _ _

theorem generateKE2_ake_clientMac_length (s : OServer) (ke1 : KE1)
    (record : ClientRecord) (options : GenerateKE2Options) (rng : Nat)
    (km : KeyMaterial) (hkm : s.keyMaterial = some km)
    (henv : record.RegistrationRecord.Envelope.length = s.conf.envelopeSize)
    (hmac : ∀ k m, (s.conf.macFn k m).length = s.conf.macSize) :
    (generateKE2 s ke1 record options rng).1.ake.clientMac.length =
      s.conf.macSize := by
  simp only [generateKE2, hkm]
  rw [if_neg (not_not_intro henv)]
  exact hmac _ _

/-- Claim C10: SetAKEState succeeds only when the AKE session state
(expected client MAC and session secret) is still empty and the supplied
buffer has length exactly MAC size plus KDF size; a successful call
stores a state from which SerializeState returns exactly the supplied
bytes; calling SetAKEState again after a successful call, or after a
successful GenerateKE2, fails and leaves the existing state unchanged. -/
theorem claim_C10 (s : OServer) (st : Bytes) :
    ((setAKEStateStep s st).2 = none →
      s.ake.clientMac = [] ∧ s.ake.sessionSecret = [] ∧
        st.length = s.conf.macSize + s.conf.kdfSize)
    ∧ (s.ake.clientMac = [] → s.ake.sessionSecret = [] →
        st.length = s.conf.macSize + s.conf.kdfSize →
        (setAKEStateStep s st).2 = none ∧
          serializeState (setAKEStateStep s st).1 = st)
    ∧ (0 < s.conf.macSize → s.ake.clientMac = [] → s.ake.sessionSecret = [] →
        st.length = s.conf.macSize + s.conf.kdfSize →
        ∀ st2 : Bytes,
          (setAKEStateStep (setAKEStateStep s st).1 st2).2.isSome = true ∧
            (setAKEStateStep (setAKEStateStep s st).1 st2).1 =
              (setAKEStateStep s st).1)
    ∧ ((∀ k m, (s.conf.macFn k m).length = s.conf.macSize) →
        0 < s.conf.macSize →
        ∀ (ke1 : KE1) (record : ClientRecord) (options : GenerateKE2Options)
          (rng : Nat) (km : KeyMaterial),
        s.keyMaterial = some km →
        record.RegistrationRecord.Envelope.length = s.conf.envelopeSize →
        ∀ st2 : Bytes,
          (setAKEStateStep (generateKE2 s ke1 record options rng).1 st2).2.isSome
              = true ∧
            (setAKEStateStep (generateKE2 s ke1 record options rng).1 st2).1 =
              (generateKE2 s ke1 record options rng).1) := by
  refine ⟨?_, ?_, ?_, ?_⟩
  · intro h
    unfold setAKEStateStep at h
    by_cases hl : st.length ≠ s.conf.macSize + s.conf.kdfSize
    · rw [if_pos hl] at h
      simp at h
    · rw [if_neg hl] at h
      unfold akeSetState at h
      by_cases he : s.ake.clientMac.length ≠ 0 ∨ s.ake.sessionSecret.length ≠ 0
      · rw [if_pos he] at h
        simp at h
      · obtain ⟨ha, hb⟩ := not_or.mp he
        exact ⟨List.length_eq_zero.mp (by omega),
          List.length_eq_zero.mp (by omega), by omega⟩
  · intro h1 h2 h3
    rw [setAKEStateStep_success s st h1 h2 h3]
    exact ⟨rfl, by simp [serializeState, serializeAkeState]⟩
  · intro hpos h1 h2 h3 st2
    rw [setAKEStateStep_success s st h1 h2 h3]
    refine setAKEStateStep_nonempty _ ?_ st2
    show st.take s.conf.macSize ≠ []
    intro hc
    have hlt : (List.take s.conf.macSize st).length = 0 := by
      rw [hc]
      rfl
    rw [List.length_take] at hlt
    omega
  · intro hmac hpos ke1 record options rng km hkm henv st2
    refine setAKEStateStep_nonempty _ ?_ st2
    have hlen := generateKE2_ake_clientMac_length s ke1 record options rng km
      hkm henv hmac
    intro hc
    rw [hc] at hlen
    simp at hlen
    omega

/-- A concrete client record with a valid envelope length for the toy
configuration. -/
def toyRecordOK : ClientRecord := {
  RegistrationRecord := {
    PublicKey := 3
    MaskingKey := [9, 9]
    Envelope := List.replicate 33 0 }
  CredentialIdentifier := [1]
  ClientIdentity := none }

/-- Witness for claim C10: a successful call on an empty state with a
three-byte buffer, its serialization, a failing second call, and a
failing call after a successful KE2 generation. -/
theorem claim_C10_witness :
    (toyServerKM.ake.clientMac = [] ∧ toyServerKM.ake.sessionSecret = [] ∧
      ([1, 2, 3] : Bytes).length =
        toyServerKM.conf.macSize + toyServerKM.conf.kdfSize)
    ∧ ((setAKEStateStep toyServerKM [1, 2, 3]).2 = none ∧
        serializeState (setAKEStateStep toyServerKM [1, 2, 3]).1 = [1, 2, 3])
    ∧ ((setAKEStateStep (setAKEStateStep toyServerKM [1, 2, 3]).1
          [4, 5, 6]).2.isSome = true ∧
        (setAKEStateStep (setAKEStateStep toyServerKM [1, 2, 3]).1 [4, 5, 6]).1 =
          (setAKEStateStep toyServerKM [1, 2, 3]).1)
    ∧ ((setAKEStateStep (generateKE2 toyServerKM toyKE1 toyRecordOK toyOptions
          0).1 [0]).2.isSome = true ∧
        (setAKEStateStep (generateKE2 toyServerKM toyKE1 toyRecordOK toyOptions
          0).1 [0]).1 =
          (generateKE2 toyServerKM toyKE1 toyRecordOK toyOptions 0).1) :=
  ⟨(claim_C10 toyServerKM [1, 2, 3]).1
      ((claim_C10 toyServerKM [1, 2, 3]).2.1 rfl rfl rfl).1,
   (claim_C10 toyServerKM [1, 2, 3]).2.1 rfl rfl rfl,
   (claim_C10 toyServerKM [1, 2, 3]).2.2.1 (by decide) rfl rfl rfl [4, 5, 6],
   (claim_C10 toyServerKM [1, 2, 3]).2.2.2 (fun k m => rfl) (by decide)
     toyKE1 toyRecordOK toyOptions 0 toyKeyMaterial rfl (by decide) [0]⟩
